import Mathlib

/-!
Verification of the friends CRUD service.

Shallow embedding of the repository's server routes (`src/server/friends.routes.ts`,
`src/server/index.ts`), the persisted `Friend` table
(`prisma/migrations/20250809182426_init/migration.sql`), and the list-page UI filter
(the `Home` client component).

Conventions:
* The database is a list of rows plus the `SERIAL` auto-increment counter.
* JSON nullability: a payload field of type `Option (Option String)` distinguishes
  an absent key (`none`) from an explicit `null` (`some none`).
* Handlers return their response together with the resulting database state and the
  trace of persistence-adapter calls they performed, so frame properties
  ("no persistence operation occurred") are statable.
* Thrown JavaScript exceptions are modelled as explicit result constructors
  (`validationError` for a `ZodError` raised by request validation, `threw` for
  anything a handler raises); the top-level `onError` translator maps them to the
  fixed envelopes.
-/

namespace FriendsApp

/-- A persisted `Friend` row, from the prisma migration and `FriendSchema`:
`id SERIAL`, `name TEXT NOT NULL`, `title TEXT`, `phoneNumber TEXT`,
`email TEXT NOT NULL` (unique), `xUsername TEXT`, `instagramUsername TEXT`. -/
structure Friend where
  id : Int
  name : String
  title : Option String
  phoneNumber : Option String
  email : String
  xUsername : Option String
  instagramUsername : Option String
deriving DecidableEq, Repr

/-- The parsed create payload (`FriendCreateSchema`): `name` and `email` required,
the four other fields optional and nullable (`none` = key absent,
`some none` = explicit `null`). -/
structure FriendCreate where
  name : String
  title : Option (Option String) := none
  phoneNumber : Option (Option String) := none
  email : String
  xUsername : Option (Option String) := none
  instagramUsername : Option (Option String) := none
deriving DecidableEq, Repr

/-- The parsed update payload (`FriendUpdateSchema` before its `refine` step):
every field optional; `name`/`email` are plain strings when present, the rest
nullable (`some none` = explicit `null`). -/
structure FriendUpdate where
  name : Option String := none
  title : Option (Option String) := none
  phoneNumber : Option (Option String) := none
  email : Option String := none
  xUsername : Option (Option String) := none
  instagramUsername : Option (Option String) := none
deriving DecidableEq, Repr

/-- The empty JSON object `{}` parsed against `FriendUpdateSchema`'s field layer:
no recognized field present. -/
def emptyFriendUpdate : FriendUpdate := {}

/-- Database state: the `Friend` table in insertion order plus the `SERIAL`
counter holding the next id to issue. -/
structure Db where
  friends : List Friend
  nextId : Int
deriving DecidableEq, Repr

/-- Well-formedness of the auto-increment state: the counter starts at 1 and
every stored row was issued an id strictly below the counter. -/
def DbWf (db : Db) : Prop :=
  1 ≤ db.nextId ∧ ∀ f ∈ db.friends, f.id < db.nextId

instance : DecidablePred DbWf := fun db => by
  unfold DbWf; infer_instance

/-- Trace entries for calls into the persistence adapter (`prisma.friend.*`). -/
inductive PrismaOp where
  | findMany
  | findUnique (id : Int)
  | create
  | update (id : Int)
  | delete (id : Int)
deriving DecidableEq, Repr

/-- Failures raised by the persistence adapter: the unique index on `email`
(from the migration) and the record-vanished case for update/delete. -/
inductive PrismaError where
  | uniqueViolation
  | recordNotFound
deriving DecidableEq, Repr

/-- `prisma.friend.findMany()`: the full table in storage order. -/
def prismaFindMany (db : Db) : List Friend :=
  db.friends

/-- `prisma.friend.findUnique({ where: { id } })`. -/
def prismaFindUnique (db : Db) (id : Int) : Option Friend :=
  db.friends.find? (fun f => f.id == id)

/-- The row built by `prisma.friend.create({ data })`: the counter supplies the id
and each optional column absent from `data` takes its `NULL` default
(`Option.join` sends both an absent key and an explicit `null` to `none`). -/
def mkCreatedFriend (id : Int) (data : FriendCreate) : Friend where
  id := id
  name := data.name
  title := data.title.join
  phoneNumber := data.phoneNumber.join
  email := data.email
  xUsername := data.xUsername.join
  instagramUsername := data.instagramUsername.join

/-- `prisma.friend.create({ data })`: rejects a duplicate `email` (unique index),
otherwise appends the new row and bumps the counter. -/
def prismaCreate (db : Db) (data : FriendCreate) : Except PrismaError (Friend × Db) :=
  if db.friends.any (fun g => g.email == data.email) then
    .error .uniqueViolation
  else
    let f := mkCreatedFriend db.nextId data
    .ok (f, { friends := db.friends ++ [f], nextId := db.nextId + 1 })

/-- Merging an update payload into a row: each supplied field overwrites,
each absent field keeps its stored value, the id is not part of the payload. -/
def applyUpdate (f : Friend) (data : FriendUpdate) : Friend where
  id := f.id
  name := data.name.getD f.name
  title := data.title.getD f.title
  phoneNumber := data.phoneNumber.getD f.phoneNumber
  email := data.email.getD f.email
  xUsername := data.xUsername.getD f.xUsername
  instagramUsername := data.instagramUsername.getD f.instagramUsername

/-- `prisma.friend.update({ where: { id }, data })`: fails if the row is gone,
or if the resulting `email` collides with a different row (unique index);
otherwise replaces the row in place. -/
def prismaUpdate (db : Db) (id : Int) (data : FriendUpdate) :
    Except PrismaError (Friend × Db) :=
  match prismaFindUnique db id with
  | none => .error .recordNotFound
  | some f =>
    let f' := applyUpdate f data
    if db.friends.any (fun g => g.id != id && g.email == f'.email) then
      .error .uniqueViolation
    else
      .ok (f', { db with friends := db.friends.map (fun g => if g.id == id then f' else g) })

/-- `prisma.friend.delete({ where: { id } })`: fails if the row is gone,
otherwise removes it. -/
def prismaDelete (db : Db) (id : Int) : Except PrismaError Db :=
  match prismaFindUnique db id with
  | none => .error .recordNotFound
  | some _ => .ok { db with friends := db.friends.filter (fun g => g.id != id) }

/-- One issue inside a thrown `ZodError`. -/
structure ZodIssue where
  message : String
deriving DecidableEq, Repr

/-- The `refine` message of `FriendUpdateSchema`. -/
def atLeastOneFieldMessage : String := "At least one field must be provided"

/-- `Object.keys(data).length` for a parsed update payload: the number of
recognized fields present. -/
def presentFieldCount (d : FriendUpdate) : Nat :=
  (if d.name.isSome then 1 else 0) + (if d.title.isSome then 1 else 0) +
  (if d.phoneNumber.isSome then 1 else 0) + (if d.email.isSome then 1 else 0) +
  (if d.xUsername.isSome then 1 else 0) + (if d.instagramUsername.isSome then 1 else 0)

/-- The `refine` step of `FriendUpdateSchema`: at least one recognized field must
be present, otherwise validation throws a `ZodError` carrying the refine message. -/
def validateFriendUpdate (d : FriendUpdate) : Except (List ZodIssue) FriendUpdate :=
  if 0 < presentFieldCount d then .ok d
  else .error [⟨atLeastOneFieldMessage⟩]

/-- Outcome of one routed request. `validationError` is a `ZodError` thrown by
request validation before the handler body runs (`onError` turns it into a 400);
`ok` carries the success status (200/201/204) and body; `notFound` is the explicit
404 `{ message }` response; `threw` is any other exception the handler raised
(`onError` turns it into a 500). -/
inductive RouteResult (α : Type) where
  | validationError (issues : List ZodIssue)
  | ok (status : Nat) (body : α)
  | notFound (message : String)
  | threw (message : String)
deriving DecidableEq, Repr

/-- What the create handler hands to the error-reporting collaborator on the
diagnostic path: the captured message, the captured exception, and the
fingerprint grouping key. -/
structure SentryReport where
  capturedMessage : String
  capturedException : String
  fingerprint : List String
deriving DecidableEq, Repr

/-- Result of a routed request: response, resulting database state, the trace of
persistence-adapter calls, and any error reports submitted. -/
structure RouteOutput (α : Type) where
  result : RouteResult α
  db : Db
  ops : List PrismaOp
  reports : List SentryReport := []
deriving DecidableEq, Repr

/-- `GET /friends`. -/
def listFriendsHandler (db : Db) : RouteOutput (List Friend) where
  result := .ok 200 (prismaFindMany db)
  db := db
  ops := [.findMany]

/-- `GET /friends/{id}` (id already validated by the param schema):
look the row up, 404 with the fixed message when absent. -/
def getFriendHandler (db : Db) (id : Int) : RouteOutput Friend :=
  match prismaFindUnique db id with
  | none => ⟨.notFound "Friend not found", db, [.findUnique id], []⟩
  | some f => ⟨.ok 200 f, db, [.findUnique id], []⟩

/-- The query parameters the create handler inspects (`none` = absent). -/
structure CreateQuery where
  sentryTest : Option String := none
  sameIssue : Option String := none
  fingerprintBase : Option String := none
  message : Option String := none
deriving DecidableEq, Repr

/-- `c.req.query(k) === "1" || c.req.query(k) === "true"`. -/
def isFlagOn (v : Option String) : Bool :=
  v == some "1" || v == some "true"

/-- JavaScript `v || d` for an optional string: the default kicks in when the
parameter is absent or the empty string. -/
def jsOrDefault (v : Option String) (d : String) : String :=
  match v with
  | none => d
  | some s => if s = "" then d else s

/-- The synthetic error thrown on the diagnostic path. -/
def syntheticErrMessage : String :=
  "Intentional test error in src/server/friends.routes.ts"

/-- Default for the `message` query parameter on the diagnostic path. -/
def defaultAlertMessage : String :=
  "Test alert from friends.routes.ts (pre-throw)"

/-- `POST /friends` (body already validated by `FriendCreateSchema`).
With the diagnostic flag on, the handler reports a synthetic error to the
error-reporting collaborator (message + exception, with a fingerprint whose
second part is `"static"` or a fresh random value `uuid` depending on the
`sameIssue` flag), flushes, and throws the error — never touching persistence.
Otherwise it creates the row (201), a unique-violation propagating as a throw. -/
def createFriendHandler (q : CreateQuery) (uuid : String) (body : FriendCreate)
    (db : Db) : RouteOutput Friend :=
  if isFlagOn q.sentryTest then
    let uniquePart := if isFlagOn q.sameIssue then "static" else uuid
    let report : SentryReport :=
      { capturedMessage := jsOrDefault q.message defaultAlertMessage
        capturedException := syntheticErrMessage
        fingerprint := [jsOrDefault q.fingerprintBase "test-alert", uniquePart] }
    ⟨.threw syntheticErrMessage, db, [], [report]⟩
  else
    match prismaCreate db body with
    | .error _ => ⟨.threw "Unique constraint failed on the fields: (email)", db, [.create], []⟩
    | .ok (f, db') => ⟨.ok 201 f, db', [.create], []⟩

/-- `PUT /friends/{id}` (id already validated): body validation
(`FriendUpdateSchema`'s refine) runs first and a failure throws a `ZodError`
before any persistence call; then a separate existence read, 404 when absent;
then the write, whose own failure would surface as a throw. -/
def updateFriendHandler (db : Db) (id : Int) (rawBody : FriendUpdate) :
    RouteOutput Friend :=
  match validateFriendUpdate rawBody with
  | .error issues => ⟨.validationError issues, db, [], []⟩
  | .ok data =>
    match prismaFindUnique db id with
    | none => ⟨.notFound "Friend not found", db, [.findUnique id], []⟩
    | some _ =>
      match prismaUpdate db id data with
      | .error _ => ⟨.threw "prisma update failed", db, [.findUnique id, .update id], []⟩
      | .ok (f', db') => ⟨.ok 200 f', db', [.findUnique id, .update id], []⟩

/-- `DELETE /friends/{id}` (id already validated): existence read first,
404 when absent; then the delete, 204 with empty body on success. -/
def deleteFriendHandler (db : Db) (id : Int) : RouteOutput Unit :=
  match prismaFindUnique db id with
  | none => ⟨.notFound "Friend not found", db, [.findUnique id], []⟩
  | some _ =>
    match prismaDelete db id with
    | .error _ => ⟨.threw "prisma delete failed", db, [.findUnique id, .delete id], []⟩
    | .ok db' => ⟨.ok 204 (), db', [.findUnique id, .delete id], []⟩

/-- What the top-level `onError` callback can receive: a `ZodError` raised by
schema validation (`err instanceof ZodError`), or any other thrown value. -/
inductive ThrownError where
  | zodError (issues : List ZodIssue)
  | other (message : String)
deriving DecidableEq, Repr

/-- The fixed error envelope returned by `onError`. `errors := some es` models a
present `errors` JSON field holding `es`; `none` models an absent field. -/
structure ErrorEnvelope where
  code : Nat
  errorCode : String
  message : String
  errors : Option (List ZodIssue) := none
deriving DecidableEq, Repr

/-- The app-level `onError` callback (`src/server/index.ts`): a `ZodError` maps to
the fixed 400 validation envelope (with an always-empty `errors` array), anything
else maps to the fixed 500 envelope; the function returns envelope and HTTP status. -/
def onError (err : ThrownError) : ErrorEnvelope × Nat :=
  match err with
  | .zodError _ =>
    ({ code := 400, errorCode := "VALIDATION_ERROR", message := "Validation Error",
       errors := some [] }, 400)
  | .other _ =>
    ({ code := 500, errorCode := "INTERNAL_SERVER_ERROR",
       message := "Internal Server Error" }, 500)

/-! ### The id path parameter: `z.coerce.number().int().positive()`

`z.coerce.number()` applies JavaScript `Number(input)` to the raw string.
`jsToNumber` below models the ECMAScript `ToNumber` conversion of strings:
whitespace trimming, the empty string as 0, an optional sign over a decimal
literal or `Infinity`, and unsigned hex/octal/binary literals. The grammar
yields the literal's exact mathematical value, which is then rounded to an
IEEE-754 binary64 number with round-to-nearest, ties-to-even
(`roundToBinary64`): every finite double is a rational, so the result is
represented exactly, values at or beyond 2^1024 overflow to Infinity, and
values such as 2^53 + 1 round to the neighbouring even-significand double. -/

/-- Numeric outcome of JavaScript `Number(string)`. -/
inductive JsNumber where
  | nan
  | posInf
  | negInf
  | num (q : ℚ)
deriving DecidableEq, Repr

/-- Unary minus on a JavaScript number. -/
def JsNumber.neg : JsNumber → JsNumber
  | .nan => .nan
  | .posInf => .negInf
  | .negInf => .posInf
  | .num q => .num (-q)

/-- The whitespace JavaScript strips around a numeric string. -/
def jsWhitespace (c : Char) : Bool :=
  c == ' ' || c == '\t' || c == '\n' || c == '\r' ||
  c == '\x0b' || c == '\x0c' || c == ' '

/-- Both-ends whitespace trim of the raw parameter. -/
def jsTrim (s : String) : List Char :=
  ((s.toList.dropWhile jsWhitespace).reverse.dropWhile jsWhitespace).reverse

/-- ASCII decimal digit test. -/
def isDecDigit (c : Char) : Bool :=
  c.isDigit

/-- Value of a run of decimal digits. -/
def decDigitsVal (cs : List Char) : Nat :=
  cs.foldl (fun sofar d => 10 * sofar + (d.toNat - 48)) 0

/-- The optional exponent part of a decimal literal: empty, or `e`/`E`, an
optional sign, and at least one digit, consuming the rest of the input. -/
def parseExponentTail (cs : List Char) : Option Int :=
  match cs with
  | [] => some 0
  | e :: rest =>
    if e == 'e' || e == 'E' then
      match rest with
      | '+' :: ds =>
        if !ds.isEmpty && ds.all isDecDigit then some (decDigitsVal ds) else none
      | '-' :: ds =>
        if !ds.isEmpty && ds.all isDecDigit then some (-(decDigitsVal ds : Int)) else none
      | ds =>
        if !ds.isEmpty && ds.all isDecDigit then some (decDigitsVal ds) else none
    else none

/-- An unsigned decimal literal: digits, digits `.` digits?, `.` digits, each
with an optional exponent; at least one digit overall. -/
def parseStrUnsignedDecimal (cs : List Char) : Option ℚ :=
  let ip := cs.takeWhile isDecDigit
  let rest := cs.dropWhile isDecDigit
  match rest with
  | '.' :: rest2 =>
    let fp := rest2.takeWhile isDecDigit
    let rest3 := rest2.dropWhile isDecDigit
    if ip.isEmpty && fp.isEmpty then none
    else
      (parseExponentTail rest3).map fun e =>
        ((decDigitsVal ip : ℚ) + (decDigitsVal fp : ℚ) / (10 : ℚ) ^ fp.length) * (10 : ℚ) ^ e
  | _ =>
    if ip.isEmpty then none
    else
      (parseExponentTail rest).map fun e => (decDigitsVal ip : ℚ) * (10 : ℚ) ^ e

/-- Hex digit value (digits, then lower-case and upper-case letters, by code
point). -/
def hexDigitVal (c : Char) : Option Nat :=
  let cp := c.toNat
  if 48 ≤ cp ∧ cp ≤ 57 then some (cp - 48)
  else if 97 ≤ cp ∧ cp ≤ 102 then some (cp - 87)
  else if 65 ≤ cp ∧ cp ≤ 70 then some (cp - 55)
  else none

/-- Octal digit value (by code point). -/
def octDigitVal (c : Char) : Option Nat :=
  let cp := c.toNat
  if 48 ≤ cp ∧ cp ≤ 55 then some (cp - 48) else none

/-- Binary digit value. -/
def binDigitVal (c : Char) : Option Nat :=
  match c with
  | '0' => some 0
  | '1' => some 1
  | _ => none

/-- A non-empty run of digits in the given base. -/
def parseRadixDigits (base : Nat) (dv : Char → Option Nat) (cs : List Char) : Option Nat :=
  if cs.isEmpty then none
  else cs.foldl (fun acc c => acc.bind fun a => (dv c).map fun d => a * base + d) (some 0)

/-- Round-to-nearest, ties-to-even, of a rational to an integer. -/
def rne (x : ℚ) : Int :=
  let fl := ⌊x⌋
  let fr := x - (fl : ℚ)
  if fr < 1 / 2 then fl
  else if 1 / 2 < fr then fl + 1
  else if fl % 2 = 0 then fl else fl + 1

/-- For positive `q`, the floor of its base-2 logarithm: the exponent of the
binade `[2^e, 2^(e+1))` containing `q`. -/
def ratLog2Floor (q : ℚ) : Int :=
  if 1 ≤ q then ((q.num.toNat / q.den).log2 : Int)
  else
    let j := (q.den / q.num.toNat).log2
    if q * (2 : ℚ) ^ (j : Int) = 1 then -(j : Int) else -(j : Int) - 1

/-- IEEE-754 binary64 rounding of a positive exact value, round-to-nearest with
ties to the even significand: round to the nearest multiple of the ulp
`2^(e-52)` of the value's binade — floored at the subnormal ulp `2^(-1074)` —
and overflow to Infinity when the rounded result reaches `2^1024`. -/
def roundToBinary64Pos (q : ℚ) : JsNumber :=
  let e := ratLog2Floor q
  let t : Int := max (e - 52) (-1074)
  let m := rne (q * (2 : ℚ) ^ (-t))
  let r := (m : ℚ) * (2 : ℚ) ^ t
  if (2 : ℚ) ^ (1024 : Int) ≤ r then .posInf else .num r

/-- IEEE-754 binary64 rounding of an exact signed value (rounding is symmetric
in the sign). -/
def roundToBinary64 (q : ℚ) : JsNumber :=
  if q = 0 then .num 0
  else if 0 < q then roundToBinary64Pos q
  else (roundToBinary64Pos (-q)).neg

/-- After an optional sign: `Infinity` or an unsigned decimal literal, whose
exact value is rounded to a binary64 number. -/
def parseUnsignedNumeric (cs : List Char) : JsNumber :=
  if cs = "Infinity".toList then .posInf
  else
    match parseStrUnsignedDecimal cs with
    | some q => roundToBinary64 q
    | none => .nan

/-- JavaScript `Number(string)`: the string numeric literal's exact value,
rounded to binary64 (see the section comment). -/
def jsToNumber (s : String) : JsNumber :=
  match jsTrim s with
  | [] => .num 0
  | '+' :: rest => parseUnsignedNumeric rest
  | '-' :: rest => (parseUnsignedNumeric rest).neg
  | '0' :: c :: rest =>
    if c == 'x' || c == 'X' then
      match parseRadixDigits 16 hexDigitVal rest with
      | some n => roundToBinary64 (n : ℚ)
      | none => .nan
    else if c == 'o' || c == 'O' then
      match parseRadixDigits 8 octDigitVal rest with
      | some n => roundToBinary64 (n : ℚ)
      | none => .nan
    else if c == 'b' || c == 'B' then
      match parseRadixDigits 2 binDigitVal rest with
      | some n => roundToBinary64 (n : ℚ)
      | none => .nan
    else parseUnsignedNumeric ('0' :: c :: rest)
  | cs => parseUnsignedNumeric cs

/-- The id path-parameter schema `z.coerce.number().int().positive()`:
coerce the raw string with `Number(...)`, then require an integral
(`Number.isInteger`) and strictly positive value. Returns the validated id,
or `none` when validation throws. -/
def validateIdParam (s : String) : Option Int :=
  match jsToNumber s with
  | .num q => if q.den = 1 ∧ 0 < q then some q.num else none
  | _ => none

/-! ### The list page's client-side filter -/

/-- The searchable text of a card:
`[name, title ?? "", email, xUsername ?? "", instagramUsername ?? ""].join(" ")`. -/
def friendSearchText (f : Friend) : String :=
  String.intercalate " "
    [f.name, f.title.getD "", f.email, f.xUsername.getD "", f.instagramUsername.getD ""]

/-- `needle.isPrefixOf hay || ...` scan: JavaScript `hay.includes(needle)`
on character lists. -/
def strIncludesAux (needle : List Char) : List Char → Bool
  | [] => needle.isEmpty
  | c :: rest => needle.isPrefixOf (c :: rest) || strIncludesAux needle rest

/-- JavaScript `s.includes(sub)`. -/
def stringIncludes (s sub : String) : Bool :=
  strIncludesAux sub.toList s.toList

/-- JavaScript `s.toLowerCase()` (ASCII model, mapping each character). -/
def jsToLower (s : String) : String :=
  ⟨s.data.map Char.toLower⟩

/-- JavaScript `s.trim()`: both-ends whitespace removal (same whitespace set as
numeric coercion). -/
def jsStringTrim (s : String) : String :=
  ⟨jsTrim s⟩

/-- Whether one card survives the search box: the trimmed, lower-cased query is a
substring of the lower-cased joined field text. -/
def matchesQuery (f : Friend) (query : String) : Bool :=
  stringIncludes (jsToLower (friendSearchText f)) (jsToLower (jsStringTrim query))

/-- The `filtered` memo of the `Home` component: `[]` before data arrives, the
whole fetched list when the trimmed query is empty, otherwise the fetched list
filtered by the case-insensitive substring test. -/
def filteredFriends (friends : Option (List Friend)) (query : String) : List Friend :=
  match friends with
  | none => []
  | some fs =>
    let q := jsToLower (jsStringTrim query)
    if q = "" then fs
    else fs.filter fun f => stringIncludes (jsToLower (friendSearchText f)) q

/-! ### Concrete fixtures used by the witness theorems -/

/-- The create payload of the spec's example request. -/
def adaPayload : FriendCreate := { name := "Ada Lovelace", email := "ada@example.com" }

/-- An empty database with the counter at its initial value. -/
def emptyDb : Db := ⟨[], 1⟩

/-- A one-row database. -/
def oneFriendDb : Db :=
  ⟨[⟨1, "Ada", some "Engineer", none, "ada@example.com", none, none⟩], 2⟩

/-- An update payload supplying only the `title` field. -/
def titleOnlyUpdate : FriendUpdate := { title := some (some "Boss") }

/-! ### Helper lemmas -/

/-- A lookup misses when no stored row carries the id. -/
theorem prismaFindUnique_eq_none {db : Db} {id : Int}
    (h : ∀ f ∈ db.friends, f.id ≠ id) : prismaFindUnique db id = none := by
  unfold prismaFindUnique
  rw [List.find?_eq_none]
  intro f hf
  simpa using h f hf

/-- Appending a row whose id no existing row carries makes that row the lookup
result for its id. -/
theorem find?_append_fresh (l : List Friend) (f : Friend)
    (h : ∀ g ∈ l, g.id ≠ f.id) :
    (l ++ [f]).find? (fun g => g.id == f.id) = some f := by
  rw [List.find?_append]
  have h1 : l.find? (fun g => g.id == f.id) = none := by
    rw [List.find?_eq_none]
    intro x hx
    simpa using h x hx
  simp [h1]

/-- Replacing the row found at an id makes the replacement the lookup result,
provided it keeps that id. -/
theorem find?_map_replace (l : List Friend) (id : Int) (f f' : Friend)
    (hf' : f'.id = id) (h : l.find? (fun g => g.id == id) = some f) :
    (l.map (fun g => if g.id == id then f' else g)).find? (fun g => g.id == id) =
      some f' := by
  induction l with
  | nil => simp at h
  | cons a l ih =>
    by_cases hb : (a.id == id) = true
    · rw [List.map_cons, if_pos hb, List.find?_cons_of_pos _ (by simp [hf'])]
    · have hskip : List.find? (fun g => g.id == id) (a :: l) =
          List.find? (fun g => g.id == id) l :=
        List.find?_cons_of_neg l hb
      have hskip' : List.find? (fun g => g.id == id)
            (a :: l.map (fun g => if g.id == id then f' else g)) =
          List.find? (fun g => g.id == id)
            (l.map (fun g => if g.id == id then f' else g)) :=
        List.find?_cons_of_neg _ hb
      rw [List.map_cons, if_neg hb, hskip']
      exact ih (hskip ▸ h)

/-- The empty search needle is found in every string. -/
theorem stringIncludes_empty (s : String) : stringIncludes s "" = true := by
  unfold stringIncludes
  cases s.toList with
  | nil => rfl
  | cons c rest => rfl

/-! ### Claim theorems -/

/-- C1: for every nonexistent id (a positive integer no stored record carries),
get-by-id, update (with a payload passing validation), and delete each return the
fixed not-found result with message "Friend not found" — a returned response, not
a thrown error — and update/delete leave the database unchanged. -/
theorem missing_id_not_found (db : Db) (id : Int) (data : FriendUpdate)
    (hpos : 0 < id) (habsent : ∀ f ∈ db.friends, f.id ≠ id)
    (hdata : validateFriendUpdate data = .ok data) :
    (getFriendHandler db id).result = .notFound "Friend not found" ∧
    (updateFriendHandler db id data).result = .notFound "Friend not found" ∧
    (updateFriendHandler db id data).db = db ∧
    (deleteFriendHandler db id).result = .notFound "Friend not found" ∧
    (deleteFriendHandler db id).db = db := by
  have hfind : prismaFindUnique db id = none := prismaFindUnique_eq_none habsent
  refine ⟨?_, ?_, ?_, ?_, ?_⟩ <;>
    simp [getFriendHandler, updateFriendHandler, deleteFriendHandler, hdata, hfind]

/-- Witness for C1 at a concrete database and missing id. -/
theorem missing_id_not_found_witness :
    (getFriendHandler oneFriendDb 2).result = .notFound "Friend not found" ∧
    (updateFriendHandler oneFriendDb 2 titleOnlyUpdate).result =
      .notFound "Friend not found" ∧
    (updateFriendHandler oneFriendDb 2 titleOnlyUpdate).db = oneFriendDb ∧
    (deleteFriendHandler oneFriendDb 2).result = .notFound "Friend not found" ∧
    (deleteFriendHandler oneFriendDb 2).db = oneFriendDb :=
  missing_id_not_found oneFriendDb 2 titleOnlyUpdate (by decide) (by decide) rfl

/-- C2: whenever the create request carries `sentryTest=1` or `sentryTest=true`,
the handler leaves the database exactly as it was, performs no persistence call at
all, throws the synthetic error, and first submits exactly one report capturing
that error. -/
theorem sentry_test_preserves_db (q : CreateQuery) (uuid : String)
    (body : FriendCreate) (db : Db)
    (h : q.sentryTest = some "1" ∨ q.sentryTest = some "true") :
    (createFriendHandler q uuid body db).db = db ∧
    (createFriendHandler q uuid body db).ops = [] ∧
    (createFriendHandler q uuid body db).result = .threw syntheticErrMessage ∧
    ∃ r, (createFriendHandler q uuid body db).reports = [r] ∧
      r.capturedException = syntheticErrMessage := by
  have hflag : isFlagOn q.sentryTest = true := by
    rcases h with h | h <;> simp [isFlagOn, h]
  refine ⟨?_, ?_, ?_, ?_⟩ <;> simp [createFriendHandler, hflag]

/-- Witness for C2 at a concrete flagged request. -/
theorem sentry_test_preserves_db_witness :
    (createFriendHandler { sentryTest := some "1" } "u" adaPayload emptyDb).db =
      emptyDb ∧
    (createFriendHandler { sentryTest := some "1" } "u" adaPayload emptyDb).ops = [] ∧
    (createFriendHandler { sentryTest := some "1" } "u" adaPayload emptyDb).result =
      .threw syntheticErrMessage ∧
    ∃ r, (createFriendHandler { sentryTest := some "1" } "u" adaPayload
        emptyDb).reports = [r] ∧ r.capturedException = syntheticErrMessage :=
  sentry_test_preserves_db { sentryTest := some "1" } "u" adaPayload emptyDb
    (Or.inl rfl)

/-- C3: the top-level error translator maps every schema validation failure to the
exact envelope `{code:400, errorCode:"VALIDATION_ERROR", message:"Validation
Error", errors:[]}` with status 400, and every other thrown error to the exact
envelope `{code:500, errorCode:"INTERNAL_SERVER_ERROR", message:"Internal Server
Error"}` (no `errors` field) with status 500. -/
theorem onError_envelopes :
    (∀ issues, onError (.zodError issues) =
      ({ code := 400, errorCode := "VALIDATION_ERROR", message := "Validation Error",
         errors := some [] }, 400)) ∧
    (∀ msg, onError (.other msg) =
      ({ code := 500, errorCode := "INTERNAL_SERVER_ERROR",
         message := "Internal Server Error", errors := none }, 500)) :=
  ⟨fun _ => rfl, fun _ => rfl⟩

/-- C4: an update whose payload has no recognized field (the empty object) is
rejected by validation with exactly the issue "At least one field must be
provided" (the claim's lower-case rendering of that message), and neither the
existence read nor the write is ever invoked: the persistence trace is empty and
the database unchanged. -/
theorem update_empty_payload_rejected (db : Db) (id : Int) :
    (updateFriendHandler db id emptyFriendUpdate).result =
      .validationError [⟨atLeastOneFieldMessage⟩] ∧
    jsToLower atLeastOneFieldMessage = "at least one field must be provided" ∧
    (updateFriendHandler db id emptyFriendUpdate).ops = [] ∧
    (updateFriendHandler db id emptyFriendUpdate).db = db :=
  ⟨rfl, by decide, rfl, rfl⟩

/-- C5: round-trip — creating from any payload (diagnostic flag off, fresh email
so the unique index accepts the row) and then getting the id the create response
carries yields a 200 whose record is exactly the created record. -/
theorem create_get_roundtrip (db : Db) (q : CreateQuery) (uuid : String)
    (body : FriendCreate)
    (hq : isFlagOn q.sentryTest = false) (hwf : DbWf db)
    (hfresh : ∀ g ∈ db.friends, g.email ≠ body.email) :
    ∃ f : Friend,
      (createFriendHandler q uuid body db).result = .ok 201 f ∧
      (getFriendHandler (createFriendHandler q uuid body db).db f.id).result =
        .ok 200 f := by
  have hany : db.friends.any (fun g => g.email == body.email) = false := by
    rw [List.any_eq_false]
    intro x hx
    simpa using hfresh x hx
  have hcreate : createFriendHandler q uuid body db =
      ⟨.ok 201 (mkCreatedFriend db.nextId body),
       ⟨db.friends ++ [mkCreatedFriend db.nextId body], db.nextId + 1⟩,
       [.create], []⟩ := by
    simp [createFriendHandler, hq, prismaCreate, hany]
  refine ⟨mkCreatedFriend db.nextId body, by rw [hcreate], ?_⟩
  rw [hcreate]
  have hne : ∀ g ∈ db.friends, g.id ≠ (mkCreatedFriend db.nextId body).id :=
    fun g hg => ne_of_lt (hwf.2 g hg)
  have hfind : prismaFindUnique
      ⟨db.friends ++ [mkCreatedFriend db.nextId body], db.nextId + 1⟩
      (mkCreatedFriend db.nextId body).id = some (mkCreatedFriend db.nextId body) :=
    find?_append_fresh db.friends _ hne
  simp [getFriendHandler, hfind]

/-- Witness for C5: creating Ada in the empty database and reading the returned id
back gives the same record. -/
theorem create_get_roundtrip_witness :
    ∃ f : Friend,
      (createFriendHandler {} "u" adaPayload emptyDb).result = .ok 201 f ∧
      (getFriendHandler (createFriendHandler {} "u" adaPayload emptyDb).db
        f.id).result = .ok 200 f :=
  create_get_roundtrip emptyDb {} "u" adaPayload rfl (by decide) (by simp [emptyDb])

/-- C6: any create (diagnostic flag off, fresh email) answers 201 with a record
whose `name` and `email` equal the payload's, whose optional fields equal the
supplied values and are `null` when absent — so the spec's Ada example yields id
present and `title`/`phoneNumber`/`xUsername`/`instagramUsername` all null — and
whose id is positive and distinct from every id stored so far. -/
theorem create_response_fields (db : Db) (q : CreateQuery) (uuid : String)
    (body : FriendCreate)
    (hq : isFlagOn q.sentryTest = false) (hwf : DbWf db)
    (hfresh : ∀ g ∈ db.friends, g.email ≠ body.email) :
    ∃ f : Friend,
      (createFriendHandler q uuid body db).result = .ok 201 f ∧
      f.name = body.name ∧ f.email = body.email ∧
      (body.title = none → f.title = none) ∧
      (∀ v, body.title = some v → f.title = v) ∧
      (body.phoneNumber = none → f.phoneNumber = none) ∧
      (∀ v, body.phoneNumber = some v → f.phoneNumber = v) ∧
      (body.xUsername = none → f.xUsername = none) ∧
      (∀ v, body.xUsername = some v → f.xUsername = v) ∧
      (body.instagramUsername = none → f.instagramUsername = none) ∧
      (∀ v, body.instagramUsername = some v → f.instagramUsername = v) ∧
      0 < f.id ∧ ∀ g ∈ db.friends, g.id ≠ f.id := by
  have hany : db.friends.any (fun g => g.email == body.email) = false := by
    rw [List.any_eq_false]
    intro x hx
    simpa using hfresh x hx
  refine ⟨mkCreatedFriend db.nextId body, ?_, rfl, rfl, ?_, ?_, ?_, ?_, ?_, ?_, ?_, ?_,
    ?_, ?_⟩
  · simp [createFriendHandler, hq, prismaCreate, hany]
  · intro h
    show body.title.join = none
    rw [h]; rfl
  · intro v h
    show body.title.join = v
    rw [h]; rfl
  · intro h
    show body.phoneNumber.join = none
    rw [h]; rfl
  · intro v h
    show body.phoneNumber.join = v
    rw [h]; rfl
  · intro h
    show body.xUsername.join = none
    rw [h]; rfl
  · intro v h
    show body.xUsername.join = v
    rw [h]; rfl
  · intro h
    show body.instagramUsername.join = none
    rw [h]; rfl
  · intro v h
    show body.instagramUsername.join = v
    rw [h]; rfl
  · exact lt_of_lt_of_le Int.zero_lt_one hwf.1
  · exact fun g hg => ne_of_lt (hwf.2 g hg)

/-- Witness for C6 at the spec's example: POST Ada on the empty database. -/
theorem create_response_fields_witness :
    ∃ f : Friend,
      (createFriendHandler {} "u" adaPayload emptyDb).result = .ok 201 f ∧
      f.name = adaPayload.name ∧ f.email = adaPayload.email ∧
      (adaPayload.title = none → f.title = none) ∧
      (∀ v, adaPayload.title = some v → f.title = v) ∧
      (adaPayload.phoneNumber = none → f.phoneNumber = none) ∧
      (∀ v, adaPayload.phoneNumber = some v → f.phoneNumber = v) ∧
      (adaPayload.xUsername = none → f.xUsername = none) ∧
      (∀ v, adaPayload.xUsername = some v → f.xUsername = v) ∧
      (adaPayload.instagramUsername = none → f.instagramUsername = none) ∧
      (∀ v, adaPayload.instagramUsername = some v → f.instagramUsername = v) ∧
      0 < f.id ∧ ∀ g ∈ emptyDb.friends, g.id ≠ f.id :=
  create_response_fields emptyDb {} "u" adaPayload rfl (by decide)
    (by simp [emptyDb])

/-- C7: updating an existing record with a payload that passes validation (and
whose `email`, when supplied, collides with no other row) answers 200 with a
record — also the one then stored under that id — that keeps the id, takes every
supplied field's new value, and keeps the prior value of every field the payload
omits. -/
theorem update_changes_exactly_supplied (db : Db) (id : Int) (data : FriendUpdate)
    (f : Friend)
    (hfind : prismaFindUnique db id = some f)
    (hvalid : validateFriendUpdate data = .ok data)
    (hemail : ∀ g ∈ db.friends, g.id ≠ id → g.email ≠ data.email.getD f.email) :
    ∃ f' : Friend,
      (updateFriendHandler db id data).result = .ok 200 f' ∧
      prismaFindUnique (updateFriendHandler db id data).db id = some f' ∧
      f'.id = f.id ∧
      (data.name = none → f'.name = f.name) ∧
      (∀ v, data.name = some v → f'.name = v) ∧
      (data.title = none → f'.title = f.title) ∧
      (∀ v, data.title = some v → f'.title = v) ∧
      (data.phoneNumber = none → f'.phoneNumber = f.phoneNumber) ∧
      (∀ v, data.phoneNumber = some v → f'.phoneNumber = v) ∧
      (data.email = none → f'.email = f.email) ∧
      (∀ v, data.email = some v → f'.email = v) ∧
      (data.xUsername = none → f'.xUsername = f.xUsername) ∧
      (∀ v, data.xUsername = some v → f'.xUsername = v) ∧
      (data.instagramUsername = none → f'.instagramUsername = f.instagramUsername) ∧
      (∀ v, data.instagramUsername = some v → f'.instagramUsername = v) := by
  have hfid : f.id = id := by
    have := List.find?_some hfind
    simpa using this
  have hany : db.friends.any
      (fun g => g.id != id && g.email == (applyUpdate f data).email) = false := by
    rw [List.any_eq_false]
    intro x hx
    simp only [Bool.and_eq_true, bne_iff_ne, beq_iff_eq, not_and]
    intro hne
    exact hemail x hx hne
  have hupd : prismaUpdate db id data = .ok (applyUpdate f data,
      { db with friends :=
          db.friends.map (fun g => if g.id == id then applyUpdate f data else g) }) := by
    simp [prismaUpdate, hfind, hany]
  have hhandler : updateFriendHandler db id data = ⟨.ok 200 (applyUpdate f data),
      { db with friends :=
          db.friends.map (fun g => if g.id == id then applyUpdate f data else g) },
      [.findUnique id, .update id], []⟩ := by
    simp [updateFriendHandler, hvalid, hfind, hupd]
  refine ⟨applyUpdate f data, by rw [hhandler], ?_, rfl, ?_, ?_, ?_, ?_, ?_, ?_, ?_, ?_,
    ?_, ?_, ?_, ?_⟩
  · rw [hhandler]
    exact find?_map_replace db.friends id f (applyUpdate f data) hfid hfind
  · intro h
    show data.name.getD f.name = f.name
    rw [h]; rfl
  · intro v h
    show data.name.getD f.name = v
    rw [h]; rfl
  · intro h
    show data.title.getD f.title = f.title
    rw [h]; rfl
  · intro v h
    show data.title.getD f.title = v
    rw [h]; rfl
  · intro h
    show data.phoneNumber.getD f.phoneNumber = f.phoneNumber
    rw [h]; rfl
  · intro v h
    show data.phoneNumber.getD f.phoneNumber = v
    rw [h]; rfl
  · intro h
    show data.email.getD f.email = f.email
    rw [h]; rfl
  · intro v h
    show data.email.getD f.email = v
    rw [h]; rfl
  · intro h
    show data.xUsername.getD f.xUsername = f.xUsername
    rw [h]; rfl
  · intro v h
    show data.xUsername.getD f.xUsername = v
    rw [h]; rfl
  · intro h
    show data.instagramUsername.getD f.instagramUsername = f.instagramUsername
    rw [h]; rfl
  · intro v h
    show data.instagramUsername.getD f.instagramUsername = v
    rw [h]; rfl

/-- Witness for C7: supplying only `title` on the stored row keeps every other
field and the id. -/
theorem update_changes_exactly_supplied_witness :
    ∃ f' : Friend,
      (updateFriendHandler oneFriendDb 1 titleOnlyUpdate).result = .ok 200 f' ∧
      prismaFindUnique (updateFriendHandler oneFriendDb 1 titleOnlyUpdate).db 1 =
        some f' ∧
      f'.id = (⟨1, "Ada", some "Engineer", none, "ada@example.com", none, none⟩ :
        Friend).id ∧
      (titleOnlyUpdate.name = none → f'.name = "Ada") ∧
      (∀ v, titleOnlyUpdate.name = some v → f'.name = v) ∧
      (titleOnlyUpdate.title = none → f'.title = some "Engineer") ∧
      (∀ v, titleOnlyUpdate.title = some v → f'.title = v) ∧
      (titleOnlyUpdate.phoneNumber = none → f'.phoneNumber = none) ∧
      (∀ v, titleOnlyUpdate.phoneNumber = some v → f'.phoneNumber = v) ∧
      (titleOnlyUpdate.email = none → f'.email = "ada@example.com") ∧
      (∀ v, titleOnlyUpdate.email = some v → f'.email = v) ∧
      (titleOnlyUpdate.xUsername = none → f'.xUsername = none) ∧
      (∀ v, titleOnlyUpdate.xUsername = some v → f'.xUsername = v) ∧
      (titleOnlyUpdate.instagramUsername = none → f'.instagramUsername = none) ∧
      (∀ v, titleOnlyUpdate.instagramUsername = some v →
        f'.instagramUsername = v) :=
  update_changes_exactly_supplied oneFriendDb 1 titleOnlyUpdate
    ⟨1, "Ada", some "Engineer", none, "ada@example.com", none, none⟩
    (by decide) rfl (by decide)

/-- C8: the id path parameter validates successfully, yielding `n`, exactly when
JavaScript number coercion sends the raw string to the integral value `n` and
`n` is strictly positive; every non-coercible string (`NaN`), every infinite
coercion, and every non-integral or non-positive value fails validation. -/
theorem id_param_validation_iff (s : String) (n : Int) :
    validateIdParam s = some n ↔ jsToNumber s = .num (n : ℚ) ∧ 0 < n := by
  unfold validateIdParam
  cases h : jsToNumber s with
  | nan => simp
  | posInf => simp
  | negInf => simp
  | num q =>
    simp only [JsNumber.num.injEq]
    constructor
    · intro hv
      by_cases hc : q.den = 1 ∧ 0 < q
      · rw [if_pos hc] at hv
        have hn : q.num = n := Option.some.inj hv
        have hq : (q.num : ℚ) = q := (Rat.den_eq_one_iff q).mp hc.1
        exact ⟨by rw [← hn]; exact hq.symm, by rw [← hn]; exact Rat.num_pos.mpr hc.2⟩
      · rw [if_neg hc] at hv
        cases hv
    · rintro ⟨hq, hpos⟩
      subst hq
      rw [if_pos ⟨Rat.den_intCast n, by exact_mod_cast hpos⟩]
      rw [Rat.num_intCast]

/-- C9: the client-side filter keeps exactly (and in order) the fetched records
whose lower-cased joined text — name, title, email and both social handles, with
null fields as empty strings — contains the trimmed lower-cased query as a
substring, computed purely over the fetched list. -/
theorem filter_matches_exactly (fs : List Friend) (query : String) :
    filteredFriends (some fs) query = fs.filter (fun f => matchesQuery f query) := by
  unfold filteredFriends matchesQuery
  by_cases h : jsToLower (jsStringTrim query) = ""
  · show (if jsToLower (jsStringTrim query) = "" then fs
      else fs.filter fun f =>
        stringIncludes (jsToLower (friendSearchText f)) (jsToLower (jsStringTrim query))) =
      fs.filter fun f =>
        stringIncludes (jsToLower (friendSearchText f)) (jsToLower (jsStringTrim query))
    rw [if_pos h, h]
    exact (List.filter_eq_self.mpr fun a _ => stringIncludes_empty _).symm
  · show (if jsToLower (jsStringTrim query) = "" then fs
      else fs.filter fun f =>
        stringIncludes (jsToLower (friendSearchText f)) (jsToLower (jsStringTrim query))) =
      fs.filter fun f =>
        stringIncludes (jsToLower (friendSearchText f)) (jsToLower (jsStringTrim query))
    rw [if_neg h]

/-- C10: with a query that trims to the empty string (empty or whitespace-only),
the filter returns the fetched list itself — unchanged and in order. -/
theorem filter_blank_query_identity (fs : List Friend) (query : String)
    (h : jsStringTrim query = "") :
    filteredFriends (some fs) query = fs := by
  unfold filteredFriends
  show (if jsToLower (jsStringTrim query) = "" then fs
    else fs.filter fun f =>
      stringIncludes (jsToLower (friendSearchText f)) (jsToLower (jsStringTrim query))) = fs
  rw [h]
  rfl

/-- Witness for C10: a whitespace-only query leaves a concrete one-row list
untouched. -/
theorem filter_blank_query_identity_witness :
    jsStringTrim "   " = "" ∧
    filteredFriends
      (some [⟨1, "Ada", some "Engineer", none, "ada@example.com", none, none⟩])
      "   " =
      [⟨1, "Ada", some "Engineer", none, "ada@example.com", none, none⟩] :=
  ⟨by decide,
    filter_blank_query_identity
      [⟨1, "Ada", some "Engineer", none, "ada@example.com", none, none⟩] "   "
      (by decide)⟩

end FriendsApp
